/-
Verification of the `debuginfod` client library (d-e-s-o/debuginfod).

This file gives a shallow embedding of the library's core in Lean 4 and
proves properties of it.  The embedding covers:

  * `src/util.rs`       — `format_build_id`
  * `src/buildid.rs`    — `BuildId` and `BuildId::format`
  * `src/client.rs`     — `Client::fetch_debug_info`, `ClientBuilder::build`
  * `src/caching_client.rs` — `CachingClient::fetch_debug_info`

External collaborators (the `url` crate, the HTTP transport behind the
`HttpClient` trait, the file system and the inner fetch client used by the
caching layer) are modelled as explicit parameters/oracles: the embedding
of each function is parameterised by the answers the environment gives.
Errors built with `anyhow` are modelled structurally (the error and the
context values attached to it) rather than as formatted message strings.
Functions whose interesting behaviour is the *sequence of external calls*
they make additionally return the trace of those calls; the plain function
is the first projection of the traced one.
-/
import Mathlib

set_option maxHeartbeats 1000000

/-! ## Hex formatting (`src/util.rs`) -/

/-- Lowercase hexadecimal digit for a value below 16 (the digit set used by
Rust's `{:x}` formatting). -/
def hexDigit (n : Nat) : Char :=
  if n < 10 then Char.ofNat (48 + n) else Char.ofNat (87 + n)

/-- Rust's `format!("{b:02x}")` for a byte `b : u8`: two lowercase hex
characters, zero padded.  Bytes are modelled as `Nat`; the `% 16` keep the
function total and agree with the `u8` semantics for every `b < 256`. -/
def hex02 (b : Nat) : String :=
  String.mk [hexDigit (b / 16 % 16), hexDigit (b % 16)]

/-- Embedding of `format_build_id` (src/util.rs): fold over the bytes,
appending each byte's two-character hex form. -/
def format_build_id (build_id : List Nat) : String :=
  build_id.foldl (fun s b => s ++ hex02 b) ""

/-! ## Build ids (`src/buildid.rs`) -/

/-- Embedding of `BuildId` (src/buildid.rs): raw bytes off ELF, or a
pre-formatted hex string. -/
inductive BuildId where
  | rawBytes (bytes : List Nat)
  | formatted (s : String)
deriving DecidableEq

/-- Embedding of `BuildId::format` (src/buildid.rs): raw bytes are rendered
via `format_build_id`, a pre-formatted string is returned verbatim. -/
def BuildId.format : BuildId → String
  | .rawBytes bytes => format_build_id bytes
  | .formatted s => s

/-! ## URLs (the `url` crate, as used by `src/client.rs`)

The `url` crate is an external dependency.  We model the fragment of it the
client uses: a parsed URL with a scheme, a host and a path (query/fragment
are not used by the library's base URLs and are omitted), serialisation
(`Url::as_str`), and `Url::set_path`, which REPLACES the URL's path
component, prepending a slash when the given path does not start with
one. -/

structure Url where
  scheme : String
  host : String
  /-- The path component, starting with a slash (`Url` normalises an empty
  path of a special-scheme URL to a single slash). -/
  path : String
deriving DecidableEq

/-- Model of `Url::as_str`: serialisation of the parsed URL. -/
def Url.asStr (u : Url) : String :=
  u.scheme ++ "://" ++ u.host ++ u.path

/-- Model of `Url::set_path`: the path component is replaced wholesale; a
missing leading slash is added (the leading-slash test is expressed on the
first character of the string). -/
def Url.setPath (u : Url) (p : String) : Url :=
  { u with path := if p.data.head? = some '/' then p else "/" ++ p }

/-! ## The HTTP transport seam (`HttpClient` / `HttpClientError`) -/

/-- Embedding of `HttpClientError` (src/http_client.rs): status code,
invalid URL, or some other (connection/IO) failure.  The boxed causes are
modelled as strings. -/
inductive HttpClientError where
  | statusCode (code : Nat)
  | invalidUrl (cause : String)
  | other (cause : String)
deriving DecidableEq

/-! ## The fetch client (`src/client.rs`) -/

/-- Embedding of `Response` (src/client.rs): the reader for the returned
data paired with the URL of the server that had the debug info. -/
structure Response (R : Type) where
  data : R
  server_url : String
deriving DecidableEq

/-- Embedding of `Client` (src/client.rs): the ordered base URLs and the
HTTP client.  The trait object `Box<dyn HttpClient>` is modelled as the
function `get`. -/
structure Client (R : Type) where
  base_urls : List Url
  client : String → Except HttpClientError R

/-- Errors produced inside `Client::fetch_debug_info`, modelled
structurally:
`statusError s` is `status_to_error(s)` (an error built from the non-404
HTTP status `s`); `issueError e url` is the transport error `e` wrapped
with the context naming the request `url` (the `with_context` on the
`Err(err)` arm). -/
inductive FetchError where
  | statusError (status : Nat)
  | issueError (e : HttpClientError) (url : String)
deriving DecidableEq

/-- The error `Client::fetch_debug_info` returns: the inner `FetchError`
wrapped with the context naming the formatted build id (the final
`with_context` before returning). -/
structure FinalError where
  build_id : String
  err : FetchError
deriving DecidableEq

/-- The URL requested from a server: the base URL with its path set to
`buildid/<hex id>/debuginfo` (the `url.set_path(...)` in
`Client::fetch_debug_info`), serialised. -/
def requestUrl (base : Url) (hex : String) : String :=
  (base.setPath ("buildid/" ++ hex ++ "/debuginfo")).asStr

/-- The `for base_url in &self.base_urls` loop of
`Client::fetch_debug_info`, with the two error accumulators
(`issue_err`, `server_err`) made explicit, returning the result of the
loop together with the trace of URLs passed to the transport.
Arms, in source order: transport success returns immediately; status 404
continues silently; another status records a server error (first occurrence
only) and continues; invalid-URL and other transport errors record an issue
error (first occurrence only) and continue. -/
def fetchLoop {R : Type} (get : String → Except HttpClientError R) (hex : String) :
    List Url → Option FetchError → Option FetchError →
    Except FetchError (Option (Response R)) × List String
  | [], issue_err, server_err =>
    (match server_err.or issue_err with
     | some err => .error err
     | none => .ok none, [])
  | base :: rest, issue_err, server_err =>
    let url := requestUrl base hex
    match get url with
    | .ok response => (.ok (some ⟨response, base.asStr⟩), [url])
    | .error (.statusCode s) =>
      if s = 404 then
        let r := fetchLoop get hex rest issue_err server_err
        (r.1, url :: r.2)
      else
        let r := fetchLoop get hex rest issue_err
          (server_err.or (some (.statusError s)))
        (r.1, url :: r.2)
    | .error (.invalidUrl c) =>
      let r := fetchLoop get hex rest
        (issue_err.or (some (.issueError (.invalidUrl c) url))) server_err
      (r.1, url :: r.2)
    | .error (.other c) =>
      let r := fetchLoop get hex rest
        (issue_err.or (some (.issueError (.other c) url))) server_err
      (r.1, url :: r.2)

/-- Embedding of `Client::fetch_debug_info` (src/client.rs), instrumented
with the trace of URLs requested from the transport.  The formatted build
id is computed once, the base URLs are tried in order via `fetchLoop`, and
a final error is wrapped with the build-id context. -/
def Client.fetchDebugInfoTrace {R : Type} (c : Client R) (buildId : BuildId) :
    Except FinalError (Option (Response R)) × List String :=
  let build_id := buildId.format
  let r := fetchLoop c.client build_id c.base_urls none none
  (match r.1 with
   | .ok v => .ok v
   | .error e => .error ⟨build_id, e⟩,
   r.2)

/-- Embedding of `Client::fetch_debug_info` (src/client.rs): the result of
the traced version. -/
def Client.fetchDebugInfo {R : Type} (c : Client R) (buildId : BuildId) :
    Except FinalError (Option (Response R)) :=
  (c.fetchDebugInfoTrace buildId).1

/-! ## The client builder (`ClientBuilder::build`, src/client.rs)

`Url::parse` belongs to the external `url` crate, so `build` is
parameterised by the parse function the crate provides. -/

/-- The construction-time error of `ClientBuilder::build`: the parse
failure wrapped with the context naming the offending URL string. -/
structure BuildError where
  url : String
  cause : String
deriving DecidableEq

/-- Model of Rust's `str::trim` (used as `url.trim()` in
`ClientBuilder::build`): leading and trailing whitespace characters
removed. -/
def rustTrim (s : String) : String :=
  String.mk
    (((s.data.dropWhile Char.isWhitespace).reverse.dropWhile
      Char.isWhitespace).reverse)

/-- The `map(parse).collect::<Result<Vec<_>>>()` of `ClientBuilder::build`:
each string is trimmed and parsed; the first parse failure aborts the
collection, wrapped with the failed-to-parse context. -/
def collectUrls (parse : String → Except String Url) :
    List String → Except BuildError (List Url)
  | [] => .ok []
  | u :: rest =>
    match parse (rustTrim u) with
    | .error e => .error ⟨u, e⟩
    | .ok url =>
      match collectUrls parse rest with
      | .error e => .error e
      | .ok urls => .ok (url :: urls)

/-- Embedding of `ClientBuilder::build` (src/client.rs): parse every base
URL (hard error on failure), return `none` for an empty list, otherwise the
constructed `Client`. -/
def ClientBuilder.build {R : Type} (parse : String → Except String Url)
    (client : String → Except HttpClientError R) (base_urls : List String) :
    Except BuildError (Option (Client R)) :=
  match collectUrls parse base_urls with
  | .error e => .error e
  | .ok urls =>
    if urls.isEmpty then .ok none
    else .ok (some ⟨urls, client⟩)

/-! ## The caching client (`src/caching_client.rs`)

The file system and the inner fetch client are external effects; the
embedding is parameterised by an oracle (`CacheEnv`) answering each call
the function makes, and returns the trace of the calls it performed.  An
oracle that answers `tryExists` with `false` yet fails the final
`persist_noclobber` with `AlreadyExists` models a concurrent actor
populating the entry between the two calls. -/

/-- The `std::io::ErrorKind` of a failed persist, as carried by
`tempfile::PersistError`. -/
inductive IoErrorKind where
  | alreadyExists
  | otherKind (msg : String)
deriving DecidableEq

/-- Errors of `CachingClient::fetch_debug_info`, modelled structurally.
`client e` propagates the inner client's error (the bare `?`);
`persist src dst k` is the `persist_noclobber` failure of kind `k` wrapped
with the context naming the temporary file and the target path. -/
inductive CacheError (E : Type) where
  | tryExists (msg : String)
  | client (e : E)
  | tempFile (msg : String)
  | copy (msg : String)
  | createDir (dir : String) (msg : String)
  | persist (src : String) (dst : String) (kind : IoErrorKind)
deriving DecidableEq

/-- The external calls `CachingClient::fetch_debug_info` can make, in the
order the source makes them. -/
inductive CacheOp where
  | tryExists (path : String)
  | clientFetch
  | newTempFile
  | copyData (tmp : String)
  | createDirAll (dir : String)
  | persist (src : String) (dst : String)
deriving DecidableEq

/-- Whether the call writes to storage (creates or moves files or
directories); `tryExists` is a read and `clientFetch` is network. -/
def CacheOp.isWrite : CacheOp → Bool
  | .tryExists _ => false
  | .clientFetch => false
  | .newTempFile => true
  | .copyData _ => true
  | .createDirAll _ => true
  | .persist _ _ => true

/-- The oracle answering the external calls of one
`CachingClient::fetch_debug_info` run: `Path::try_exists`, the inner
`Client::fetch_debug_info` (error type `E`, stream type `R`),
`NamedTempFile::new_in` (returning the temp file's path), `io::copy` into
the temp file, `create_dir_all`, and `NamedTempFile::persist_noclobber`. -/
structure CacheEnv (E R : Type) where
  tryExists : String → Except String Bool
  fetch : Except E (Option R)
  newTempFile : Except String String
  copyData : R → String → Except String Unit
  createDirAll : String → Except String Unit
  persistNoclobber : String → String → Except IoErrorKind Unit

/-- Embedding of `CachingClient::debuginfo_path` (src/caching_client.rs):
`<cache_dir>/<formatted build id>/debuginfo`. -/
def debuginfo_path (cache_dir : String) (build_id : List Nat) : String :=
  cache_dir ++ "/" ++ format_build_id build_id ++ "/debuginfo"

/-- The `path.parent().unwrap()` of `CachingClient::fetch_debug_info`:
`<cache_dir>/<formatted build id>`. -/
def debuginfoParent (cache_dir : String) (build_id : List Nat) : String :=
  cache_dir ++ "/" ++ format_build_id build_id

/-- Embedding of `CachingClient::fetch_debug_info` (src/caching_client.rs),
instrumented with the trace of external calls: return the target path on a
cache hit; otherwise delegate to the inner client, propagating errors and
"not found"; on data, create a temp file in the cache dir, copy the data
into it, create the entry's directory, and move the temp file to the target
with `persist_noclobber`, whose failure — of any kind, destination-exists
included — is propagated as an error. -/
def CachingClient.fetchDebugInfoTrace {E R : Type} (cache_dir : String)
    (env : CacheEnv E R) (build_id : List Nat) :
    Except (CacheError E) (Option String) × List CacheOp :=
  let path := debuginfo_path cache_dir build_id
  match env.tryExists path with
  | .error m => (.error (.tryExists m), [.tryExists path])
  | .ok true => (.ok (some path), [.tryExists path])
  | .ok false =>
    match env.fetch with
    | .error e => (.error (.client e), [.tryExists path, .clientFetch])
    | .ok none => (.ok none, [.tryExists path, .clientFetch])
    | .ok (some debug_info) =>
      match env.newTempFile with
      | .error m =>
        (.error (.tempFile m), [.tryExists path, .clientFetch, .newTempFile])
      | .ok tmp =>
        match env.copyData debug_info tmp with
        | .error m =>
          (.error (.copy m),
           [.tryExists path, .clientFetch, .newTempFile, .copyData tmp])
        | .ok _ =>
          let dir := debuginfoParent cache_dir build_id
          match env.createDirAll dir with
          | .error m =>
            (.error (.createDir dir m),
             [.tryExists path, .clientFetch, .newTempFile, .copyData tmp,
              .createDirAll dir])
          | .ok _ =>
            match env.persistNoclobber tmp path with
            | .error k =>
              (.error (.persist tmp path k),
               [.tryExists path, .clientFetch, .newTempFile, .copyData tmp,
                .createDirAll dir, .persist tmp path])
            | .ok _ =>
              (.ok (some path),
               [.tryExists path, .clientFetch, .newTempFile, .copyData tmp,
                .createDirAll dir, .persist tmp path])

/-- Embedding of `CachingClient::fetch_debug_info` (src/caching_client.rs):
the result of the traced version. -/
def CachingClient.fetchDebugInfo {E R : Type} (cache_dir : String)
    (env : CacheEnv E R) (build_id : List Nat) :
    Except (CacheError E) (Option String) :=
  (CachingClient.fetchDebugInfoTrace cache_dir env build_id).1

/-! ## Helper instances and string lemmas -/

deriving instance DecidableEq for Except

/-- Whether a character is one of the sixteen lowercase hex digits. -/
def isLowerHexDigit (c : Char) : Bool :=
  "0123456789abcdef".data.contains c

theorem string_append_assoc (a b c : String) : a ++ b ++ c = a ++ (b ++ c) := by
  apply String.ext
  simp [String.data_append]

theorem string_join_foldl (l : List String) :
    ∀ s : String, l.foldl (fun x y => x ++ y) s = s ++ String.join l := by
  induction l with
  | nil =>
    intro s
    simp [String.join, String.append_empty]
  | cons x xs ih =>
    intro s
    have h1 : String.join (x :: xs) = x ++ String.join xs := by
      show (x :: xs).foldl (fun a b => a ++ b) "" = _
      rw [List.foldl_cons, String.empty_append, ih x]
    rw [List.foldl_cons, ih (s ++ x), h1, string_append_assoc]

theorem string_join_cons (x : String) (xs : List String) :
    String.join (x :: xs) = x ++ String.join xs := by
  show (x :: xs).foldl (fun a b => a ++ b) "" = _
  rw [List.foldl_cons, String.empty_append, string_join_foldl xs x]

/-! ## Hex formatting lemmas (claim C4) -/

theorem hex02_length (b : Nat) : (hex02 b).length = 2 := rfl

theorem format_build_id_eq_join (bytes : List Nat) :
    format_build_id bytes = String.join (bytes.map hex02) := by
  show bytes.foldl (fun s b => s ++ hex02 b) "" = _
  have h : ∀ (l : List Nat) (s : String),
      l.foldl (fun s b => s ++ hex02 b) s = s ++ String.join (l.map hex02) := by
    intro l
    induction l with
    | nil =>
      intro s
      simp [String.join, String.append_empty]
    | cons b bs ih =>
      intro s
      rw [List.foldl_cons, ih (s ++ hex02 b), List.map_cons, string_join_cons,
        string_append_assoc]
  rw [h bytes "", String.empty_append]

theorem format_build_id_length (bytes : List Nat) :
    (format_build_id bytes).length = 2 * bytes.length := by
  rw [format_build_id_eq_join]
  induction bytes with
  | nil => rfl
  | cons b bs ih =>
    rw [List.map_cons, string_join_cons, String.length_append, hex02_length, ih,
      List.length_cons]
    omega

theorem hexDigit_isLowerHex (n : Nat) (h : n < 16) :
    isLowerHexDigit (hexDigit n) = true := by
  interval_cases n <;> decide

theorem hex02_all_hex (b : Nat) :
    (hex02 b).data.all isLowerHexDigit = true := by
  have h1 := hexDigit_isLowerHex (b / 16 % 16) (Nat.mod_lt _ (by omega))
  have h2 := hexDigit_isLowerHex (b % 16) (Nat.mod_lt _ (by omega))
  show List.all [hexDigit (b / 16 % 16), hexDigit (b % 16)] isLowerHexDigit = true
  simp [h1, h2]

theorem format_build_id_all_hex (bytes : List Nat) :
    (format_build_id bytes).data.all isLowerHexDigit = true := by
  rw [format_build_id_eq_join]
  induction bytes with
  | nil => rfl
  | cons b bs ih =>
    rw [List.map_cons, string_join_cons, String.data_append, List.all_append,
      hex02_all_hex, ih]
    rfl

/-! ## Characterising the fetch loop (claims C1, C3, C6, C7, C10)

The following definitions restate, over the list of per-server transport
outcomes, what the loop's accumulators compute: the first recorded server
error and the first recorded issue error. -/

/-- The first server error the loop records: the first candidate whose
transport outcome is a status error other than 404. -/
def firstServerErr {R : Type} (get : String → Except HttpClientError R)
    (hex : String) : List Url → Option FetchError
  | [] => none
  | base :: rest =>
    match get (requestUrl base hex) with
    | .error (.statusCode s) =>
      if s = 404 then firstServerErr get hex rest
      else some (.statusError s)
    | _ => firstServerErr get hex rest

/-- The first issue error the loop records: the first candidate whose
transport outcome is an invalid-URL or other transport failure, paired with
the request URL it was wrapped with. -/
def firstIssueErr {R : Type} (get : String → Except HttpClientError R)
    (hex : String) : List Url → Option FetchError
  | [] => none
  | base :: rest =>
    match get (requestUrl base hex) with
    | .error (.invalidUrl c) =>
      some (.issueError (.invalidUrl c) (requestUrl base hex))
    | .error (.other c) =>
      some (.issueError (.other c) (requestUrl base hex))
    | _ => firstIssueErr get hex rest

/-- The value the loop returns when it exhausts the server list: the
recorded server error if any, else the recorded issue error if any, else a
clean "not found". -/
def exhaustResult (R : Type) (server_err issue_err : Option FetchError) :
    Except FetchError (Option (Response R)) :=
  match server_err.or issue_err with
  | some err => .error err
  | none => .ok none

theorem option_some_or {α : Type} (a : α) (o : Option α) :
    (some a).or o = some a := rfl

theorem fetchLoop_exhaust {R : Type} (get : String → Except HttpClientError R)
    (hex : String) (urls : List Url) :
    ∀ issue_err server_err : Option FetchError,
      (∀ b ∈ urls, ∃ e, get (requestUrl b hex) = .error e) →
      (fetchLoop get hex urls issue_err server_err).1 =
        exhaustResult R (server_err.or (firstServerErr get hex urls))
          (issue_err.or (firstIssueErr get hex urls)) := by
  induction urls with
  | nil =>
    intro issue_err server_err _
    simp [fetchLoop, exhaustResult, firstServerErr, firstIssueErr,
      Option.or_none]
  | cons base rest ih =>
    intro issue_err server_err h
    obtain ⟨e, he⟩ := h base (List.mem_cons_self base rest)
    have hrest : ∀ b ∈ rest, ∃ e, get (requestUrl b hex) = .error e :=
      fun b hb => h b (List.mem_cons_of_mem base hb)
    cases e with
    | statusCode s =>
      by_cases h404 : s = 404
      · subst h404
        simp only [fetchLoop, he, if_pos rfl]
        rw [ih issue_err server_err hrest]
        simp [firstServerErr, firstIssueErr, he]
      · simp only [fetchLoop, he, if_neg h404]
        rw [ih issue_err (server_err.or (some (.statusError s))) hrest]
        simp only [firstServerErr, firstIssueErr, he, if_neg h404]
        rw [Option.or_assoc, option_some_or]
    | invalidUrl c =>
      simp only [fetchLoop, he]
      rw [ih (issue_err.or (some (.issueError (.invalidUrl c)
        (requestUrl base hex)))) server_err hrest]
      simp only [firstServerErr, firstIssueErr, he]
      rw [Option.or_assoc, option_some_or]
    | other c =>
      simp only [fetchLoop, he]
      rw [ih (issue_err.or (some (.issueError (.other c)
        (requestUrl base hex)))) server_err hrest]
      simp only [firstServerErr, firstIssueErr, he]
      rw [Option.or_assoc, option_some_or]

theorem fetchLoop_first_success {R : Type}
    (get : String → Except HttpClientError R) (hex : String) (b : Url) (d : R)
    (hb : get (requestUrl b hex) = .ok d) (post : List Url) :
    ∀ (pre : List Url) (issue_err server_err : Option FetchError),
      (∀ p ∈ pre, ∃ e, get (requestUrl p hex) = .error e) →
      fetchLoop get hex (pre ++ b :: post) issue_err server_err =
        (.ok (some ⟨d, b.asStr⟩), (pre ++ [b]).map (fun u => requestUrl u hex)) := by
  intro pre
  induction pre with
  | nil =>
    intro issue_err server_err _
    simp [fetchLoop, hb]
  | cons p ps ih =>
    intro issue_err server_err hpre
    obtain ⟨e, he⟩ := hpre p (List.mem_cons_self p ps)
    have hps : ∀ q ∈ ps, ∃ e, get (requestUrl q hex) = .error e :=
      fun q hq => hpre q (List.mem_cons_of_mem p hq)
    rw [List.cons_append]
    cases e with
    | statusCode s =>
      by_cases h404 : s = 404
      · subst h404
        simp only [fetchLoop, he, if_pos rfl]
        rw [ih issue_err server_err hps]
        simp
      · simp only [fetchLoop, he, if_neg h404]
        rw [ih issue_err (server_err.or (some (.statusError s))) hps]
        simp
    | invalidUrl c =>
      simp only [fetchLoop, he]
      rw [ih (issue_err.or (some (.issueError (.invalidUrl c)
        (requestUrl p hex)))) server_err hps]
      simp
    | other c =>
      simp only [fetchLoop, he]
      rw [ih (issue_err.or (some (.issueError (.other c)
        (requestUrl p hex)))) server_err hps]
      simp

theorem fetchLoop_ok_some {R : Type}
    (get : String → Except HttpClientError R) (hex : String) :
    ∀ (urls : List Url) (issue_err server_err : Option FetchError)
      (resp : Response R),
      (fetchLoop get hex urls issue_err server_err).1 = .ok (some resp) →
      ∃ b ∈ urls, resp.server_url = b.asStr ∧
        get (requestUrl b hex) = .ok resp.data := by
  intro urls
  induction urls with
  | nil =>
    intro issue_err server_err resp h
    simp only [fetchLoop] at h
    cases hor : (server_err.or issue_err) with
    | some e => rw [hor] at h; exact absurd h (by simp)
    | none => rw [hor] at h; exact absurd h (by simp)
  | cons base rest ih =>
    intro issue_err server_err resp h
    cases hg : get (requestUrl base hex) with
    | ok d =>
      simp only [fetchLoop, hg] at h
      obtain rfl : (⟨d, base.asStr⟩ : Response R) = resp := by
        injection h with h1
        injection h1
      exact ⟨base, List.mem_cons_self base rest, rfl, hg⟩
    | error e =>
      cases e with
      | statusCode s =>
        by_cases h404 : s = 404
        · subst h404
          simp only [fetchLoop, hg, if_pos rfl] at h
          obtain ⟨b, hb, h1, h2⟩ := ih issue_err server_err resp h
          exact ⟨b, List.mem_cons_of_mem base hb, h1, h2⟩
        · simp only [fetchLoop, hg, if_neg h404] at h
          obtain ⟨b, hb, h1, h2⟩ := ih issue_err
            (server_err.or (some (.statusError s))) resp h
          exact ⟨b, List.mem_cons_of_mem base hb, h1, h2⟩
      | invalidUrl c =>
        simp only [fetchLoop, hg] at h
        obtain ⟨b, hb, h1, h2⟩ := ih (issue_err.or (some (.issueError
          (.invalidUrl c) (requestUrl base hex)))) server_err resp h
        exact ⟨b, List.mem_cons_of_mem base hb, h1, h2⟩
      | other c =>
        simp only [fetchLoop, hg] at h
        obtain ⟨b, hb, h1, h2⟩ := ih (issue_err.or (some (.issueError
          (.other c) (requestUrl base hex)))) server_err resp h
        exact ⟨b, List.mem_cons_of_mem base hb, h1, h2⟩

theorem fetchLoop_trace_take {R : Type}
    (get : String → Except HttpClientError R) (hex : String) :
    ∀ (urls : List Url) (issue_err server_err : Option FetchError),
      ∃ n, (fetchLoop get hex urls issue_err server_err).2 =
        (urls.take n).map (fun u => requestUrl u hex) := by
  intro urls
  induction urls with
  | nil =>
    intro issue_err server_err
    exact ⟨0, rfl⟩
  | cons base rest ih =>
    intro issue_err server_err
    cases hg : get (requestUrl base hex) with
    | ok d =>
      refine ⟨1, ?_⟩
      simp [fetchLoop, hg]
    | error e =>
      cases e with
      | statusCode s =>
        by_cases h404 : s = 404
        · subst h404
          obtain ⟨n, hn⟩ := ih issue_err server_err
          refine ⟨n + 1, ?_⟩
          simp [fetchLoop, hg, hn]
        · obtain ⟨n, hn⟩ := ih issue_err (server_err.or (some (.statusError s)))
          refine ⟨n + 1, ?_⟩
          simp [fetchLoop, hg, if_neg h404, hn]
      | invalidUrl c =>
        obtain ⟨n, hn⟩ := ih (issue_err.or (some (.issueError (.invalidUrl c)
          (requestUrl base hex)))) server_err
        refine ⟨n + 1, ?_⟩
        simp [fetchLoop, hg, hn]
      | other c =>
        obtain ⟨n, hn⟩ := ih (issue_err.or (some (.issueError (.other c)
          (requestUrl base hex)))) server_err
        refine ⟨n + 1, ?_⟩
        simp [fetchLoop, hg, hn]

theorem firstServerErr_all_404 {R : Type}
    (get : String → Except HttpClientError R) (hex : String) :
    ∀ urls : List Url,
      (∀ b ∈ urls, get (requestUrl b hex) = .error (.statusCode 404)) →
      firstServerErr get hex urls = none := by
  intro urls
  induction urls with
  | nil => intro _; rfl
  | cons base rest ih =>
    intro h
    have hb := h base (List.mem_cons_self base rest)
    simp only [firstServerErr, hb, if_pos rfl]
    exact ih fun b hbr => h b (List.mem_cons_of_mem base hbr)

theorem firstIssueErr_all_404 {R : Type}
    (get : String → Except HttpClientError R) (hex : String) :
    ∀ urls : List Url,
      (∀ b ∈ urls, get (requestUrl b hex) = .error (.statusCode 404)) →
      firstIssueErr get hex urls = none := by
  intro urls
  induction urls with
  | nil => intro _; rfl
  | cons base rest ih =>
    intro h
    have hb := h base (List.mem_cons_self base rest)
    simp only [firstIssueErr, hb]
    exact ih fun b hbr => h b (List.mem_cons_of_mem base hbr)

/-! ## Demonstration transports and clients used by the witnesses -/

def demoUrlA : Url := ⟨"https", "a.example", "/"⟩

def demoUrlB : Url := ⟨"https", "b.example", "/"⟩

/-- A transport whose first server cannot be reached and whose second
answers HTTP 500 — the issue error occurs chronologically first. -/
def demoGetMixed : String → Except HttpClientError Unit := fun url =>
  if url = "https://a.example/buildid/ab/debuginfo" then
    .error (.other "connection refused")
  else
    .error (.statusCode 500)

def demoClientMixed : Client Unit := ⟨[demoUrlA, demoUrlB], demoGetMixed⟩

/-- A transport that reports not-found everywhere. -/
def demoGet404 {R : Type} : String → Except HttpClientError R := fun _ =>
  .error (.statusCode 404)

def demoClient404 : Client Unit := ⟨[demoUrlA, demoUrlB], demoGet404⟩

/-- A transport where only the second server has the data. -/
def demoGetFound : String → Except HttpClientError String := fun url =>
  if url = "https://b.example/buildid/ab/debuginfo" then .ok "Debug info!"
  else .error (.statusCode 404)

def demoClientFound : Client String := ⟨[demoUrlA, demoUrlB], demoGetFound⟩

/-- A single server whose base URL carries a non-empty path component. -/
def demoPathUrl : Url := ⟨"https", "example.com", "/pkg"⟩

def demoPathClient : Client Unit := ⟨[demoPathUrl], demoGet404⟩

/-! ## Claim C1 -/

/-- C1: when no server yields a transport success and at least one
candidate returned a non-404 status error, the surfaced error is built from
the first such server error (and wrapped with the build-id context), no
matter whether connectivity/issue errors occurred before or after it. -/
theorem client_fetch_surfaces_first_server_error {R : Type} (c : Client R)
    (bid : BuildId) (fe : FetchError)
    (hfail : ∀ b ∈ c.base_urls, ∃ e,
      c.client (requestUrl b bid.format) = .error e)
    (hsrv : firstServerErr c.client bid.format c.base_urls = some fe) :
    c.fetchDebugInfo bid = .error ⟨bid.format, fe⟩ := by
  simp only [Client.fetchDebugInfo, Client.fetchDebugInfoTrace]
  rw [fetchLoop_exhaust c.client bid.format c.base_urls none none hfail, hsrv]
  simp [exhaustResult, Option.none_or, option_some_or]

/-- Witness for C1: connection refused at rank 0, HTTP 500 at rank 1 — the
result error carries status 500, though the issue error came first. -/
theorem client_fetch_surfaces_first_server_error_witness :
    demoClientMixed.fetchDebugInfo (BuildId.formatted "ab") =
      .error ⟨"ab", .statusError 500⟩ :=
  client_fetch_surfaces_first_server_error demoClientMixed
    (BuildId.formatted "ab") (.statusError 500)
    (by
      intro b hb
      simp only [demoClientMixed, List.mem_cons, List.not_mem_nil,
        or_false] at hb
      rcases hb with rfl | rfl
      · exact ⟨.other "connection refused", by decide⟩
      · exact ⟨.statusCode 500, by decide⟩)
    (by decide)

/-! ## Claim C3 -/

/-- C3: servers are contacted strictly in list order and the first
transport success returns immediately with that server's stream and
identity; the trace shows exactly the failing earlier candidates followed
by the successful one — servers after it are never contacted. -/
theorem client_fetch_first_success_wins {R : Type} (c : Client R)
    (bid : BuildId) (pre post : List Url) (b : Url) (d : R)
    (hurls : c.base_urls = pre ++ b :: post)
    (hpre : ∀ p ∈ pre, ∃ e, c.client (requestUrl p bid.format) = .error e)
    (hb : c.client (requestUrl b bid.format) = .ok d) :
    c.fetchDebugInfoTrace bid =
      (.ok (some ⟨d, b.asStr⟩),
       (pre ++ [b]).map (fun u => requestUrl u bid.format)) := by
  simp only [Client.fetchDebugInfoTrace]
  rw [hurls,
    fetchLoop_first_success c.client bid.format b d hb post pre none none hpre]

/-- Witness for C3: the success at rank 1 (after a not-found at rank 0) is
returned, with rank 1's identity, and only ranks 0 and 1 are contacted. -/
theorem client_fetch_first_success_wins_witness :
    demoClientFound.fetchDebugInfoTrace (BuildId.formatted "ab") =
      (.ok (some ⟨"Debug info!", "https://b.example/"⟩),
       ["https://a.example/buildid/ab/debuginfo",
        "https://b.example/buildid/ab/debuginfo"]) := by
  rw [client_fetch_first_success_wins demoClientFound (BuildId.formatted "ab")
    [demoUrlA] [] demoUrlB "Debug info!" rfl
    (by
      intro p hp
      simp only [List.mem_singleton] at hp
      subst hp
      exact ⟨.statusCode 404, by decide⟩)
    (by decide)]
  decide

/-! ## Claim C6 -/

/-- C6: when every server answers 404, the fetch returns a clean
"not found", never an error. -/
theorem client_fetch_all_not_found {R : Type} (c : Client R) (bid : BuildId)
    (_hne : c.base_urls ≠ [])
    (h : ∀ b ∈ c.base_urls,
      c.client (requestUrl b bid.format) = .error (.statusCode 404)) :
    c.fetchDebugInfo bid = .ok none := by
  have hfail : ∀ b ∈ c.base_urls, ∃ e,
      c.client (requestUrl b bid.format) = .error e :=
    fun b hb => ⟨_, h b hb⟩
  simp only [Client.fetchDebugInfo, Client.fetchDebugInfoTrace]
  rw [fetchLoop_exhaust c.client bid.format c.base_urls none none hfail,
    firstServerErr_all_404 c.client bid.format c.base_urls h,
    firstIssueErr_all_404 c.client bid.format c.base_urls h]
  rfl

/-- Witness for C6: two servers, both 404, result is `Ok(None)`. -/
theorem client_fetch_all_not_found_witness :
    demoClient404.fetchDebugInfo (BuildId.formatted "ab") = .ok none :=
  client_fetch_all_not_found demoClient404 (BuildId.formatted "ab")
    (by decide)
    (by
      intro b hb
      simp only [demoClient404, List.mem_cons, List.not_mem_nil,
        or_false] at hb
      rcases hb with rfl | rfl <;> decide)

/-! ## Claim C7 -/

/-- C7 (amended): the canonical hex id is computed once per call — every
URL handed to the transport uses the same `bid.format` string — and the
requested URL for a server is its base URL with the path component replaced
by `/buildid/<hex id>/debuginfo`.  For a base URL whose own path is empty
(serialised as `/`), this coincides with `<base_url as_str>` followed by
`buildid/<hex id>/debuginfo`; a non-empty path component of the base URL is
discarded by the replacement, not kept as a prefix. -/
theorem client_fetch_request_url_shape {R : Type} (c : Client R)
    (bid : BuildId) :
    (∃ n, (c.fetchDebugInfoTrace bid).2 =
      (c.base_urls.take n).map (fun u => requestUrl u bid.format)) ∧
    ∀ b : Url, b.path = "/" →
      requestUrl b bid.format =
        b.asStr ++ ("buildid/" ++ bid.format ++ "/debuginfo") := by
  constructor
  · simp only [Client.fetchDebugInfoTrace]
    exact fetchLoop_trace_take c.client bid.format c.base_urls none none
  · intro b hb
    have hhead : ("buildid/" ++ bid.format ++ "/debuginfo").data.head? =
        some 'b' := by
      rw [string_append_assoc, String.data_append, List.head?_append]
      rfl
    simp only [requestUrl, Url.setPath, Url.asStr, hhead]
    rw [if_neg (by decide), hb]
    apply String.ext
    simp [String.data_append]

/-- Witness for C7 (amended), at a concrete client and build id. -/
theorem client_fetch_request_url_shape_witness :
    (∃ n, (demoClientFound.fetchDebugInfoTrace (BuildId.formatted "ab")).2 =
      (demoClientFound.base_urls.take n).map
        (fun u => requestUrl u (BuildId.formatted "ab").format)) ∧
    requestUrl demoUrlA (BuildId.formatted "ab").format =
      demoUrlA.asStr ++
        ("buildid/" ++ (BuildId.formatted "ab").format ++ "/debuginfo") :=
  ⟨(client_fetch_request_url_shape demoClientFound (BuildId.formatted "ab")).1,
   (client_fetch_request_url_shape demoClientFound
     (BuildId.formatted "ab")).2 demoUrlA rfl⟩

/-- Counterexample to C7 as stated: for the base URL
`https://example.com/pkg` — which carries the non-empty path component
`/pkg` — the URL actually requested is
`https://example.com/buildid/ab/debuginfo`: the base URL's own path is
replaced, so the requested URL is NOT `<base_url>/buildid/<hex>/debuginfo`. -/
theorem client_fetch_request_url_counterexample :
    (demoPathClient.fetchDebugInfoTrace (BuildId.formatted "ab")).2 =
      ["https://example.com/buildid/ab/debuginfo"] ∧
    demoPathUrl.asStr = "https://example.com/pkg" ∧
    "https://example.com/buildid/ab/debuginfo" ≠
      demoPathUrl.asStr ++ "/buildid/ab/debuginfo" := by
  refine ⟨?_, ?_, ?_⟩ <;> decide

/-! ## Claim C10 -/

/-- C10: a successful fetch reports as `server_url` the serialisation of
the answering server's configured base URL (the one whose transport call
succeeded with the returned data) — not the path-augmented per-request
URL. -/
theorem client_fetch_server_url_is_base {R : Type} (c : Client R)
    (bid : BuildId) (resp : Response R)
    (h : c.fetchDebugInfo bid = .ok (some resp)) :
    ∃ b ∈ c.base_urls, resp.server_url = b.asStr ∧
      c.client (requestUrl b bid.format) = .ok resp.data := by
  simp only [Client.fetchDebugInfo, Client.fetchDebugInfoTrace] at h
  cases hl : (fetchLoop c.client bid.format c.base_urls none none).1 with
  | ok v =>
    rw [hl] at h
    have hv : v = some resp := by
      injection h
    subst hv
    exact fetchLoop_ok_some c.client bid.format c.base_urls none none resp hl
  | error e =>
    rw [hl] at h
    exact absurd h (by simp)

/-- Witness for C10: the success at rank 1 reports
`https://b.example/` — the configured base URL — as `server_url`. -/
theorem client_fetch_server_url_is_base_witness :
    ∃ b ∈ demoClientFound.base_urls,
      (⟨"Debug info!", "https://b.example/"⟩ : Response String).server_url =
        b.asStr ∧
      demoClientFound.client
        (requestUrl b (BuildId.formatted "ab").format) = .ok "Debug info!" :=
  client_fetch_server_url_is_base demoClientFound (BuildId.formatted "ab")
    ⟨"Debug info!", "https://b.example/"⟩ (by decide)

/-! ## Claim C4 -/

/-- C4: the canonical hex rendering of raw build-id bytes is the
concatenation, in byte order, of each byte's two-character zero-padded
lowercase hex form; its length is exactly twice the byte count and all of
its characters are lowercase hex digits.  Determinism is immediate: the
embedding is a pure function, so re-deriving the rendering yields the same
string. -/
theorem format_build_id_canonical_hex (bytes : List Nat) :
    BuildId.format (.rawBytes bytes) = format_build_id bytes ∧
    format_build_id bytes = String.join (bytes.map hex02) ∧
    (format_build_id bytes).length = 2 * bytes.length ∧
    (format_build_id bytes).data.all isLowerHexDigit = true :=
  ⟨rfl, format_build_id_eq_join bytes, format_build_id_length bytes,
    format_build_id_all_hex bytes⟩

/-! ## Claim C8 -/

/-- A small concrete URL parser standing in for `url::Url::parse` in the
witnesses: it accepts `<scheme>://<host>[/<path>]` and rejects anything
without a `://` separator (such as `not a url`) as a relative URL. -/
def demoParse (s : String) : Except String Url :=
  match s.data.splitOn ':' with
  | [scheme, rest] =>
    match rest with
    | '/' :: '/' :: hostpath =>
      if scheme = [] then .error "relative URL without a base"
      else
        match hostpath.splitOn '/' with
        | [] => .error "empty host"
        | host :: segs =>
          if host = [] then .error "empty host"
          else
            .ok ⟨String.mk scheme, String.mk host,
              String.mk ('/' :: List.intercalate ['/'] segs)⟩
    | _ => .error "relative URL without a base"
  | _ => .error "relative URL without a base"

theorem collectUrls_error_of_mem (parse : String → Except String Url)
    (urls : List String)
    (h : ∃ u ∈ urls, ∃ e, parse (rustTrim u) = .error e) :
    ∃ be, collectUrls parse urls = .error be := by
  induction urls with
  | nil =>
    obtain ⟨u, hu, _⟩ := h
    exact absurd hu (List.not_mem_nil u)
  | cons v rest ih =>
    cases hv : parse (rustTrim v) with
    | error e => exact ⟨⟨v, e⟩, by simp [collectUrls, hv]⟩
    | ok url =>
      obtain ⟨u, hu, e, he⟩ := h
      rcases List.mem_cons.mp hu with rfl | humem
      · rw [hv] at he
        exact absurd he (by simp)
      · obtain ⟨be, hbe⟩ := ih ⟨u, humem, e, he⟩
        exact ⟨be, by simp [collectUrls, hv, hbe]⟩

/-- C8: building a client from an empty list of URL strings yields
`Ok(None)` ("no client", not an error), while a list containing a string
the URL parser rejects yields a construction error. -/
theorem clientBuilder_build_empty_and_invalid {R : Type}
    (parse : String → Except String Url)
    (client : String → Except HttpClientError R) :
    ClientBuilder.build parse client [] = .ok none ∧
    ∀ urls : List String, (∃ u ∈ urls, ∃ e, parse (rustTrim u) = .error e) →
      ∃ be, ClientBuilder.build parse client urls = .error be := by
  constructor
  · rfl
  · intro urls h
    obtain ⟨be, hbe⟩ := collectUrls_error_of_mem parse urls h
    exact ⟨be, by simp [ClientBuilder.build, hbe]⟩

/-- Witness for C8: with the demonstration parser, the empty list builds
"no client" and the list containing `not a url` fails construction. -/
theorem clientBuilder_build_empty_and_invalid_witness :
    ClientBuilder.build demoParse (demoGet404 (R := Unit)) [] = .ok none ∧
    ∃ be, ClientBuilder.build demoParse (demoGet404 (R := Unit))
      ["not a url"] = .error be :=
  ⟨(clientBuilder_build_empty_and_invalid demoParse demoGet404).1,
   (clientBuilder_build_empty_and_invalid demoParse demoGet404).2
     ["not a url"]
     ⟨"not a url", by decide,
      "relative URL without a base", by decide⟩⟩

/-! ## Demonstration cache environments used by the witnesses -/

/-- An environment whose cache already holds every entry. -/
def demoEnvHit : CacheEnv Unit Unit :=
  { tryExists := fun _ => .ok true
  , fetch := .ok (some ())
  , newTempFile := .ok "/cache/.tmp42"
  , copyData := fun _ _ => .ok ()
  , createDirAll := fun _ => .ok ()
  , persistNoclobber := fun _ _ => .ok () }

/-- An environment with an empty cache whose inner client reports
"not found". -/
def demoEnvMiss : CacheEnv Unit Unit :=
  { tryExists := fun _ => .ok false
  , fetch := .ok none
  , newTempFile := .ok "/cache/.tmp42"
  , copyData := fun _ _ => .ok ()
  , createDirAll := fun _ => .ok ()
  , persistNoclobber := fun _ _ => .ok () }

/-- An environment modelling a lost populate race: the entry does not exist
at the initial check, the inner client returns data, every write step
succeeds, but the final `persist_noclobber` fails because a concurrent
actor created the destination in the meantime. -/
def demoEnvRace : CacheEnv Unit Unit :=
  { tryExists := fun _ => .ok false
  , fetch := .ok (some ())
  , newTempFile := .ok "/cache/.tmp42"
  , copyData := fun _ _ => .ok ()
  , createDirAll := fun _ => .ok ()
  , persistNoclobber := fun _ _ => .error .alreadyExists }

/-! ## Claim C5 -/

/-- C5: when the cache entry path already exists, the caching client
returns exactly that path after the single existence check: the inner
fetch client is never invoked (so the transport sees zero calls) and no
storage-writing operation is performed. -/
theorem cachingClient_cache_hit {E R : Type} (cache_dir : String)
    (env : CacheEnv E R) (build_id : List Nat)
    (h : env.tryExists (debuginfo_path cache_dir build_id) = .ok true) :
    CachingClient.fetchDebugInfoTrace cache_dir env build_id =
      (.ok (some (debuginfo_path cache_dir build_id)),
       [.tryExists (debuginfo_path cache_dir build_id)]) ∧
    CacheOp.clientFetch ∉
      (CachingClient.fetchDebugInfoTrace cache_dir env build_id).2 ∧
    ∀ op ∈ (CachingClient.fetchDebugInfoTrace cache_dir env build_id).2,
      op.isWrite = false := by
  have heq : CachingClient.fetchDebugInfoTrace cache_dir env build_id =
      (.ok (some (debuginfo_path cache_dir build_id)),
       [.tryExists (debuginfo_path cache_dir build_id)]) := by
    simp only [CachingClient.fetchDebugInfoTrace, h]
  refine ⟨heq, ?_, ?_⟩
  · rw [heq]
    simp
  · rw [heq]
    intro op hop
    simp only [List.mem_singleton] at hop
    subst hop
    rfl

/-- Witness for C5, at a concrete environment. -/
theorem cachingClient_cache_hit_witness :
    CachingClient.fetchDebugInfoTrace "/cache" demoEnvHit [0] =
      (.ok (some (debuginfo_path "/cache" [0])),
       [.tryExists (debuginfo_path "/cache" [0])]) ∧
    CacheOp.clientFetch ∉
      (CachingClient.fetchDebugInfoTrace "/cache" demoEnvHit [0]).2 ∧
    ∀ op ∈ (CachingClient.fetchDebugInfoTrace "/cache" demoEnvHit [0]).2,
      op.isWrite = false :=
  cachingClient_cache_hit "/cache" demoEnvHit [0] (by decide)

/-! ## Claim C9 -/

/-- C9: on a cache miss where the inner client reports "not found", the
caching client returns "not found" and performs no storage-writing
operation — no temp file, no directory creation, no move — so the target
path is not created. -/
theorem cachingClient_not_found_no_writes {E R : Type} (cache_dir : String)
    (env : CacheEnv E R) (build_id : List Nat)
    (h1 : env.tryExists (debuginfo_path cache_dir build_id) = .ok false)
    (h2 : env.fetch = .ok none) :
    CachingClient.fetchDebugInfoTrace cache_dir env build_id =
      (.ok none,
       [.tryExists (debuginfo_path cache_dir build_id), .clientFetch]) ∧
    ∀ op ∈ (CachingClient.fetchDebugInfoTrace cache_dir env build_id).2,
      op.isWrite = false := by
  have heq : CachingClient.fetchDebugInfoTrace cache_dir env build_id =
      (.ok none,
       [.tryExists (debuginfo_path cache_dir build_id), .clientFetch]) := by
    simp only [CachingClient.fetchDebugInfoTrace, h1, h2]
  refine ⟨heq, ?_⟩
  rw [heq]
  intro op hop
  simp only [List.mem_cons, List.not_mem_nil, or_false] at hop
  rcases hop with rfl | rfl <;> rfl

/-- Witness for C9, at a concrete environment. -/
theorem cachingClient_not_found_no_writes_witness :
    CachingClient.fetchDebugInfoTrace "/cache" demoEnvMiss [0] =
      (.ok none, [.tryExists (debuginfo_path "/cache" [0]), .clientFetch]) ∧
    ∀ op ∈ (CachingClient.fetchDebugInfoTrace "/cache" demoEnvMiss [0]).2,
      op.isWrite = false :=
  cachingClient_not_found_no_writes "/cache" demoEnvMiss [0]
    (by decide) (by decide)

/-! ## Claim C2 -/

/-- Counterexample to C2 as stated: with an environment in which the
destination comes to exist between the initial check and the final move (a
concurrent actor won the race), `persist_noclobber` fails with
`AlreadyExists` and the call returns an ERROR — it does not succeed with
the target path, contrary to the claim. -/
theorem cachingClient_race_counterexample :
    CachingClient.fetchDebugInfo "/cache" demoEnvRace [0] =
      .error (.persist "/cache/.tmp42" "/cache/00/debuginfo"
        .alreadyExists) ∧
    CachingClient.fetchDebugInfo "/cache" demoEnvRace [0] ≠
      .ok (some "/cache/00/debuginfo") := by
  constructor <;> decide

/-- C2 (amended): when the final move of the temporary file fails — in
particular with the destination-already-exists error a lost populate race
produces — the caching client propagates the persist failure (wrapped with
the temporary and target paths) as an error; the call does not succeed. -/
theorem cachingClient_persist_failure_is_error {E R : Type}
    (cache_dir : String) (env : CacheEnv E R) (build_id : List Nat)
    (d : R) (tmp : String) (k : IoErrorKind)
    (h1 : env.tryExists (debuginfo_path cache_dir build_id) = .ok false)
    (h2 : env.fetch = .ok (some d))
    (h3 : env.newTempFile = .ok tmp)
    (h4 : env.copyData d tmp = .ok ())
    (h5 : env.createDirAll (debuginfoParent cache_dir build_id) = .ok ())
    (h6 : env.persistNoclobber tmp (debuginfo_path cache_dir build_id) =
      .error k) :
    CachingClient.fetchDebugInfo cache_dir env build_id =
      .error (.persist tmp (debuginfo_path cache_dir build_id) k) := by
  simp only [CachingClient.fetchDebugInfo, CachingClient.fetchDebugInfoTrace,
    h1, h2, h3, h4, h5, h6]

/-- Witness for C2 (amended), at the concrete racing environment. -/
theorem cachingClient_persist_failure_is_error_witness :
    CachingClient.fetchDebugInfo "/cache" demoEnvRace [0] =
      .error (.persist "/cache/.tmp42" (debuginfo_path "/cache" [0])
        .alreadyExists) :=
  cachingClient_persist_failure_is_error "/cache" demoEnvRace [0] () 
    "/cache/.tmp42" .alreadyExists (by decide) (by decide) (by decide)
    (by decide) (by decide) (by decide)
